import Mathlib

/-!
Shallow embedding of the websocket session manager of
`loadtest/user/userentity/websocket.go` (package `userentity`).

Conventions of the embedding:
* Go `time.Duration` values are `Int` nanoseconds.
* Go `int`/`int64` counters and sequence numbers are `Int`.
* The external store (`memstore`) is an oracle: a structure of response
  functions returning Go-style `(value, error)` pairs, where a Go `nil`
  pointer or `nil` error is `Option.none`.
* Store mutations performed by a handler are recorded as a trace of
  `StoreOp` values, so "exactly one upsert call" is a statement about the
  trace.
* `json.Unmarshal` is external; it is passed in as a decoder
  `String → Option _` (`none` models a decode error).
* A Go `nil`-pointer dereference is the distinguished outcome
  `Outcome.nilDeref`.
-/

namespace Websocket

/-- One nanosecond is the unit; `second` is `time.Second` in nanoseconds. -/
def second : Int := 1000000000

/-- `time.Minute` in nanoseconds. -/
def minute : Int := 60 * second

/-- `minWebsocketReconnectDuration = 3 * time.Second` from websocket.go. -/
def minWebsocketReconnectDuration : Int := 3 * second

/-- `maxWebsocketReconnectDuration = 5 * time.Minute` from websocket.go. -/
def maxWebsocketReconnectDuration : Int := 5 * minute

/-- `maxWebsocketFails = 7` from websocket.go. -/
def maxWebsocketFails : Int := 7

/-- Embedding of `getWaitTime(failCount int) time.Duration`:
wait is the minimum; when `failCount > maxWebsocketFails` it is multiplied
by `failCount` twice and clamped to the maximum. -/
def getWaitTime (failCount : Int) : Int :=
  let waitTime := minWebsocketReconnectDuration
  if failCount > maxWebsocketFails then
    let waitTime := waitTime * failCount * failCount
    if waitTime > maxWebsocketReconnectDuration then
      maxWebsocketReconnectDuration
    else
      waitTime
  else
    waitTime

theorem getWaitTime_of_le (f : Int) (h : ¬ f > maxWebsocketFails) :
    getWaitTime f = minWebsocketReconnectDuration := by
  simp [getWaitTime, h]

theorem getWaitTime_of_gt (f : Int) (h : f > maxWebsocketFails) :
    getWaitTime f =
      if minWebsocketReconnectDuration * f * f > maxWebsocketReconnectDuration
      then maxWebsocketReconnectDuration
      else minWebsocketReconnectDuration * f * f := by
  simp [getWaitTime, h]

theorem minDur_eq : minWebsocketReconnectDuration = 3000000000 := by
  norm_num [minWebsocketReconnectDuration, second]

theorem maxDur_eq : maxWebsocketReconnectDuration = 300000000000 := by
  norm_num [maxWebsocketReconnectDuration, minute, second]

theorem min_le_maxDur :
    minWebsocketReconnectDuration ≤ maxWebsocketReconnectDuration := by
  rw [minDur_eq, maxDur_eq]; norm_num

theorem getWaitTime_bounds (f : Int) :
    minWebsocketReconnectDuration ≤ getWaitTime f ∧
    getWaitTime f ≤ maxWebsocketReconnectDuration := by
  by_cases h : f > maxWebsocketFails
  · rw [getWaitTime_of_gt f h]
    have hf : (8 : Int) ≤ f := by
      have : (7 : Int) < f := h
      omega
    have hsq : minWebsocketReconnectDuration ≤
        minWebsocketReconnectDuration * f * f := by
      rw [minDur_eq]
      nlinarith [sq_nonneg (f - 1)]
    rcases lt_or_le maxWebsocketReconnectDuration
        (minWebsocketReconnectDuration * f * f) with hgt | hle
    · rw [if_pos hgt]
      exact ⟨min_le_maxDur, le_refl _⟩
    · rw [if_neg (not_lt.mpr hle)]
      exact ⟨hsq, hle⟩
  · rw [getWaitTime_of_le f h]
    exact ⟨le_refl _, min_le_maxDur⟩

theorem getWaitTime_mono (f g : Int) (hf : maxWebsocketFails < f)
    (hfg : f ≤ g) : getWaitTime f ≤ getWaitTime g := by
  have hg : maxWebsocketFails < g := lt_of_lt_of_le hf hfg
  rw [getWaitTime_of_gt f hf, getWaitTime_of_gt g hg]
  have hf8 : (8 : Int) ≤ f := by
    have : (7 : Int) < f := hf
    omega
  have hsq : minWebsocketReconnectDuration * f * f ≤
      minWebsocketReconnectDuration * g * g := by
    rw [minDur_eq]
    nlinarith
  split <;> split <;> linarith

/-- C5: for every failure count `f ≥ 0` the backoff wait is between the
minimum and the maximum (hence strictly positive), and it is non-decreasing
in `f` once `f` exceeds the threshold `maxWebsocketFails = 7`. -/
theorem backoff_bounds_and_mono (f g : Int) (hf : 0 ≤ f) :
    minWebsocketReconnectDuration ≤ getWaitTime f ∧
    getWaitTime f ≤ maxWebsocketReconnectDuration ∧
    0 < getWaitTime f ∧
    (maxWebsocketFails < f → f ≤ g → getWaitTime f ≤ getWaitTime g) := by
  obtain ⟨h1, h2⟩ := getWaitTime_bounds f
  refine ⟨h1, h2, ?_, fun h3 h4 => getWaitTime_mono f g h3 h4⟩
  have hpos : (0 : Int) < minWebsocketReconnectDuration := by
    rw [minDur_eq]; norm_num
  omega

/-- Witness for C5, at failure counts 8 and 10. -/
theorem backoff_bounds_and_mono_witness :
    minWebsocketReconnectDuration ≤ getWaitTime 8 ∧
    getWaitTime 8 ≤ maxWebsocketReconnectDuration ∧
    0 < getWaitTime 8 ∧
    getWaitTime 8 ≤ getWaitTime 10 := by
  obtain ⟨h1, h2, h3, h4⟩ := backoff_bounds_and_mono 8 10 (by norm_num)
  exact ⟨h1, h2, h3, h4 (by norm_num [maxWebsocketFails]) (by norm_num)⟩

/-- C6: the backoff (a pure Lean function, hence deterministic and
side-effect free) equals the fixed base wait of 3 seconds for every failure
count not exceeding the threshold 7, and for `f > 7` equals
`base * f * f` clamped to the fixed maximum of 5 minutes. -/
theorem backoff_closed_form (f : Int) :
    getWaitTime f =
      if 7 < f then min (3 * second * f * f) (5 * minute)
      else 3 * second := by
  by_cases h : f > maxWebsocketFails
  · rw [getWaitTime_of_gt f h]
    have h7 : (7 : Int) < f := h
    rw [if_pos h7, min_def]
    simp only [minWebsocketReconnectDuration, maxWebsocketReconnectDuration]
    split <;> split <;> first | rfl | linarith
  · rw [getWaitTime_of_le f h]
    have h7 : ¬ (7 : Int) < f := h
    rw [if_neg h7]
    simp [minWebsocketReconnectDuration]

/-! ## Data model: events, store oracle, handler outcomes -/

/-- Event type string constants of the mattermost model package. -/
def websocketEventHello : String := "hello"

def websocketEventReactionAdded : String := "reaction_added"

def websocketEventReactionRemoved : String := "reaction_removed"

def websocketEventPosted : String := "posted"

def websocketEventPostEdited : String := "post_edited"

def websocketEventPostDeleted : String := "post_deleted"

/-- A value of the event's `GetData()` map (`map[string]interface{}`):
either a Go string (the only shape type-asserted by the code) or anything
else. -/
inductive WSData where
  | str (s : String)
  | nonString
deriving DecidableEq

/-- Embedding of `model.WebSocketEvent`: event type, `GetSequence()` and
the `GetData()` map as an association list. -/
structure WSEvent where
  eventType : String
  sequence : Int
  data : List (String × WSData)
deriving DecidableEq

/-- `ev.GetData()[k]` as an association-list lookup. -/
def getData (ev : WSEvent) (k : String) : Option WSData :=
  (ev.data.find? (fun p => p.1 == k)).map (fun p => p.2)

/-- The fields of `model.Channel` the code reads. -/
structure Channel where
  id : String
deriving DecidableEq

/-- The fields of `model.Post` the code reads. -/
structure Post where
  id : String
  channelId : String
deriving DecidableEq

/-- The fields of `model.Reaction` the code reads. -/
structure Reaction where
  userId : String
  postId : String
  emojiName : String
deriving DecidableEq

/-- Errors the external store can return: the two sentinel errors of
`memstore` the code tests with `errors.Is`, and any other error. -/
inductive StoreError where
  | channelNotFound
  | postNotFound
  | other (msg : String)
deriving DecidableEq

/-- The store collaborator as an oracle of Go-style `(value, error)`
results; `none` is a Go `nil` pointer or `nil` error. -/
structure Store where
  currentChannel : Option Channel × Option StoreError
  post : String → Option Post × Option StoreError
  setPost : Post → Option StoreError
  deletePost : String → Option StoreError
  setReaction : Reaction → Option StoreError
  deleteReaction : Reaction → Bool × Option StoreError

/-- Errors a handler can return, `seqMismatch` being the distinguished
sentinel `errSeqMismatch`; the wrapping `fmt.Errorf` calls are kept as
constructors around the inner store error. -/
inductive HandlerError where
  | seqMismatch
  | reactionDataMissing
  | reactionDataNotString
  | postDataMissing
  | postDataNotString
  | unmarshalError (s : String)
  | currentChannelError (e : StoreError)
  | postLookupError (e : StoreError)
  | storeError (e : StoreError)
  | reactionNotFound
deriving DecidableEq

/-- A store mutation issued by a handler, recorded in order. -/
inductive StoreOp where
  | setPost (p : Post)
  | deletePost (id : String)
  | setReaction (r : Reaction)
  | deleteReaction (r : Reaction)
deriving DecidableEq

/-- Result of running a handler: a normal return carrying the trace of
store mutations and the returned error (`none` = Go `nil`), or a Go
`nil`-pointer dereference. -/
inductive Outcome where
  | ret (effects : List StoreOp) (err : Option HandlerError)
  | nilDeref (effects : List StoreOp)
deriving DecidableEq

/-- The returned error of an outcome, when it returned at all. -/
def outErr : Outcome → Option HandlerError
  | .ret _ e => e
  | .nilDeref _ => none

/-! ## Event dispatcher: handleReactionEvent and handlePostEvent -/

/-- Embedding of `handleReactionEvent`. `decodeReaction` stands for
`json.Unmarshal` into a `model.Reaction` (`none` = decode error). The
short-circuit evaluation of
`errors.Is(err, ErrPostNotFound) || post.ChannelId != currentChannel.Id`
is kept: the right disjunct dereferences `post`, which is `nilDeref` when
the lookup returned no post. -/
def handleReactionEvent (store : Store) (decodeReaction : String → Option Reaction)
    (ev : WSEvent) : Outcome :=
  match getData ev "reaction" with
  | none => .ret [] (some .reactionDataMissing)
  | some .nonString => .ret [] (some .reactionDataNotString)
  | some (.str data) =>
    match decodeReaction data with
    | none => .ret [] (some (.unmarshalError data))
    | some reaction =>
      match store.currentChannel with
      | (_, some .postNotFound) =>
        .ret [] (some (.currentChannelError .postNotFound))
      | (_, some (.other m)) =>
        .ret [] (some (.currentChannelError (.other m)))
      | (none, _) => .ret [] none
      | (some currentChannel, _) =>
        match store.post reaction.postId with
        | (_, some .postNotFound) => .ret [] none
        | (postOpt, errOpt) =>
          match postOpt with
          | none => .nilDeref []
          | some post =>
            if post.channelId ≠ currentChannel.id then .ret [] none
            else
              match errOpt with
              | some e => .ret [] (some (.postLookupError e))
              | none =>
                if ev.eventType = websocketEventReactionAdded then
                  .ret [.setReaction reaction]
                    ((store.setReaction reaction).map .storeError)
                else if ev.eventType = websocketEventReactionRemoved then
                  match store.deleteReaction reaction with
                  | (_, some e) =>
                    .ret [.deleteReaction reaction] (some (.storeError e))
                  | (false, none) =>
                    .ret [.deleteReaction reaction] (some .reactionNotFound)
                  | (true, none) => .ret [.deleteReaction reaction] none
                else .ret [] none

/-- Embedding of `handlePostEvent`. `decodePost` stands for
`json.Unmarshal` into a `model.Post`. In the create/edit case the Go
condition `err == nil && currentChannel.Id == post.ChannelId`
dereferences `currentChannel` whenever `err == nil`, which is `nilDeref`
when the lookup returned no channel. -/
def handlePostEvent (store : Store) (decodePost : String → Option Post)
    (ev : WSEvent) : Outcome :=
  match getData ev "post" with
  | none => .ret [] (some .postDataMissing)
  | some .nonString => .ret [] (some .postDataNotString)
  | some (.str data) =>
    match decodePost data with
    | none => .ret [] (some (.unmarshalError data))
    | some post =>
      if ev.eventType = websocketEventPosted ∨
          ev.eventType = websocketEventPostEdited then
        match store.currentChannel with
        | (none, none) => .nilDeref []
        | (some currentChannel, none) =>
          if currentChannel.id = post.channelId then
            .ret [.setPost post] ((store.setPost post).map .storeError)
          else .ret [] none
        | (_, some .channelNotFound) => .ret [] none
        | (_, some e) => .ret [] (some (.currentChannelError e))
      else if ev.eventType = websocketEventPostDeleted then
        .ret [.deletePost post.id] ((store.deletePost post.id).map .storeError)
      else .ret [] none

/-! ## Sequence tracker and wsEventHandler -/

/-- The tracker fields of `UserEntity` the handler mutates. -/
structure TrackerState where
  wsConnID : String
  wsServerSeq : Int
deriving DecidableEq

/-- The hello-branch of `wsEventHandler` (websocket.go lines 104-116):
on a hello event carrying a string `connection_id`, reset `wsServerSeq`
to 0 when a different non-empty `wsConnID` was recorded, then overwrite
`wsConnID`. -/
def handleHello (st : TrackerState) (ev : WSEvent) : TrackerState :=
  if ev.eventType = websocketEventHello then
    match getData ev "connection_id" with
    | some (.str connID) =>
      let st1 := if st.wsConnID ≠ "" ∧ st.wsConnID ≠ connID then
          { st with wsServerSeq := 0 }
        else st
      { st1 with wsConnID := connID }
    | _ => st
  else st

/-- Embedding of `wsEventHandler`: hello processing, then the sequence
check against `wsServerSeq` (mismatch returns `errSeqMismatch`), then
advance the sequence and dispatch by event type. -/
def wsEventHandler (st : TrackerState) (store : Store)
    (decodeReaction : String → Option Reaction)
    (decodePost : String → Option Post) (ev : WSEvent) :
    TrackerState × Outcome :=
  let st := handleHello st ev
  if ev.sequence ≠ st.wsServerSeq then
    (st, .ret [] (some .seqMismatch))
  else
    let st := { st with wsServerSeq := ev.sequence + 1 }
    if ev.eventType = websocketEventReactionAdded ∨
        ev.eventType = websocketEventReactionRemoved then
      (st, handleReactionEvent store decodeReaction ev)
    else if ev.eventType = websocketEventPosted ∨
        ev.eventType = websocketEventPostEdited ∨
        ev.eventType = websocketEventPostDeleted then
      (st, handlePostEvent store decodePost ev)
    else (st, .ret [] none)

/-! ## Session loop: the inbound-event arm of `listen` -/

/-- The per-session loop state of `listen`: the tracker fields, the local
`connectionFailCount`, and the process-wide active-connection counter
(`incWebSocketConnections` / `decWebSocketConnections`). -/
structure ListenState where
  tracker : TrackerState
  connectionFailCount : Int
  wsConnections : Int
deriving DecidableEq

/-- Externally visible actions of one iteration of the inbound-event arm,
in program order. -/
inductive ListenAction where
  | closeTransport
  | decConnections
  | errChanSend (e : HandlerError)
  | republish (ev : WSEvent)
deriving DecidableEq

/-- Where control flows after the iteration: stay in the inner select loop
(`Active`), jump to the top of the outer loop via `continue start` (an
immediate new connection attempt that bypasses the failure-count increment
and the backoff wait at the bottom of the outer loop), or crash. -/
inductive ListenNext where
  | active
  | reconnect
  | panicked
deriving DecidableEq

/-- Embedding of the `case ev, ok := <-client.EventChannel` arm of
`listen` (websocket.go lines 171-185) for a delivered event (`ok`):
run `wsEventHandler`; on `errSeqMismatch` close the transport, decrement
the connection counter and `continue start`; on any other error send it on
`errChan` and fall through; in either fall-through case republish the
event on `wsEventChan` and stay in the inner loop. -/
def listenOnEvent (ls : ListenState) (store : Store)
    (decodeReaction : String → Option Reaction)
    (decodePost : String → Option Post) (ev : WSEvent) :
    ListenState × List ListenAction × ListenNext :=
  let res := wsEventHandler ls.tracker store decodeReaction decodePost ev
  let tr := res.1
  match res.2 with
  | .nilDeref _ =>
    (⟨tr, ls.connectionFailCount, ls.wsConnections⟩, [], .panicked)
  | .ret _ errOpt =>
    match errOpt with
    | some .seqMismatch =>
      (⟨tr, ls.connectionFailCount, ls.wsConnections - 1⟩,
       [.closeTransport, .decConnections], .reconnect)
    | some e =>
      (⟨tr, ls.connectionFailCount, ls.wsConnections⟩,
       [.errChanSend e, .republish ev], .active)
    | none =>
      (⟨tr, ls.connectionFailCount, ls.wsConnections⟩,
       [.republish ev], .active)

/-! ## Public façade: SendTypingEvent -/

/-- The `userTypingMsg` struct sent on `ue.wsTyping`. -/
structure UserTypingMsg where
  channelId : String
  parentId : String
deriving DecidableEq

/-- Embedding of `SendTypingEvent`. The `connected` flag is
`ue.connected`, set when the session is started (`Connect`) — that setter
lives outside this file's source, so the flag itself is the model of
"the session was started". Result: the returned error and the message
enqueued on `wsTyping`, if any; the function itself makes no transport
call (only the session loop does). -/
def sendTypingEvent (connected : Bool) (channelId parentId : String) :
    Option String × Option UserTypingMsg :=
  if ¬ connected then (some "user is not connected", none)
  else (none, some ⟨channelId, parentId⟩)

/-! ## Concrete fixtures used by witnesses and counterexamples -/

/-- A store whose answers are all "absent": no current channel, no posts,
all mutations succeed, delete-reaction reports not found. -/
def store0 : Store where
  currentChannel := (none, some .channelNotFound)
  post := fun _ => (none, some .postNotFound)
  setPost := fun _ => none
  deletePost := fun _ => none
  setReaction := fun _ => none
  deleteReaction := fun _ => (false, none)

/-- A decoder that always fails, as `json.Unmarshal` on garbage. -/
def decodeReactionFail : String → Option Reaction := fun _ => none

/-- A decoder that always fails, as `json.Unmarshal` on garbage. -/
def decodePostFail : String → Option Post := fun _ => none

/-- A store with channel `c1` current and post `p1` in it; deleting a
reaction reports "not found". -/
def storeChan : Store where
  currentChannel := (some ⟨"c1"⟩, none)
  post := fun pid =>
    if pid = "p1" then (some ⟨"p1", "c1"⟩, none) else (none, some .postNotFound)
  setPost := fun _ => none
  deletePost := fun _ => none
  setReaction := fun _ => none
  deleteReaction := fun _ => (false, none)

/-- Like `storeChan` but the reaction is present, so deleting succeeds. -/
def storeChanReact : Store where
  currentChannel := (some ⟨"c1"⟩, none)
  post := fun pid =>
    if pid = "p1" then (some ⟨"p1", "c1"⟩, none) else (none, some .postNotFound)
  setPost := fun _ => none
  deletePost := fun _ => none
  setReaction := fun _ => none
  deleteReaction := fun _ => (true, none)

/-- A store whose post lookup fails with a non-sentinel error and a `nil`
post pointer. -/
def storeErrLookup : Store where
  currentChannel := (some ⟨"c1"⟩, none)
  post := fun _ => (none, some (.other "db failure"))
  setPost := fun _ => none
  deletePost := fun _ => none
  setReaction := fun _ => none
  deleteReaction := fun _ => (false, none)

/-- A decoder recognizing the payload "POST" as post `p1` in channel
`c1`. -/
def decodePostC : String → Option Post := fun s =>
  if s = "POST" then some ⟨"p1", "c1"⟩ else none

/-- A decoder recognizing the payload "REACT" as a reaction on `p1`. -/
def decodeReactionC : String → Option Reaction := fun s =>
  if s = "REACT" then some ⟨"u1", "p1", "smile"⟩ else none

/-! ## Helper lemmas -/

/-- If the event is not a hello event carrying a string connection id,
the hello branch leaves the tracker untouched. -/
theorem handleHello_eq_of_not (st : TrackerState) (ev : WSEvent)
    (h : ¬ (ev.eventType = websocketEventHello ∧
            ∃ s, getData ev "connection_id" = some (.str s))) :
    handleHello st ev = st := by
  by_cases hty : ev.eventType = websocketEventHello
  · cases hd : getData ev "connection_id" with
    | none => simp [handleHello, hty, hd]
    | some d =>
      cases d with
      | str s => exact absurd ⟨hty, s, hd⟩ h
      | nonString => simp [handleHello, hty, hd]
  · simp [handleHello, hty]

/-- The reaction dispatcher never returns the sequence-mismatch
sentinel. -/
theorem handleReactionEvent_no_mismatch (store : Store)
    (decR : String → Option Reaction) (ev : WSEvent) :
    outErr (handleReactionEvent store decR ev) ≠
      some HandlerError.seqMismatch := by
  unfold handleReactionEvent
  repeat' split
  all_goals simp [outErr, Option.map_eq_some']

/-- The post dispatcher never returns the sequence-mismatch sentinel. -/
theorem handlePostEvent_no_mismatch (store : Store)
    (decP : String → Option Post) (ev : WSEvent) :
    outErr (handlePostEvent store decP ev) ≠
      some HandlerError.seqMismatch := by
  unfold handlePostEvent
  repeat' split
  all_goals simp [outErr, Option.map_eq_some']

/-! ## Claim theorems -/

/-- C2 counterexample: tracker `("a", 5)`, hello event carrying
connection id "b" with sequence 5. The claim says an event whose sequence
equals `serverSequence = 5` is accepted and advances to 6, and that a
rejected event leaves the tracker unchanged; the code instead first lets
the hello branch reset the tracker to `("b", 0)` and then rejects the
event (5 ≠ 0) with `errSeqMismatch`, with the tracker changed. -/
theorem seq_equality_counterexample :
    wsEventHandler ⟨"a", 5⟩ store0 decodeReactionFail decodePostFail
      ⟨websocketEventHello, 5, [("connection_id", WSData.str "b")]⟩ =
      (⟨"b", 0⟩, .ret [] (some .seqMismatch)) := by
  decide

/-- C2 (amended): for every inbound event that is NOT a hello event
carrying a string connection identifier, with tracker state
`serverSequence = n`: if the event's sequence equals `n` it is accepted
(no sequence-mismatch error) and `serverSequence` advances to `n + 1`;
if its sequence differs from `n` it is rejected with the distinguished
sequence-mismatch error and the tracker state is left unchanged. -/
theorem seq_equality_amended (st : TrackerState) (store : Store)
    (decR : String → Option Reaction) (decP : String → Option Post)
    (ev : WSEvent)
    (h : ¬ (ev.eventType = websocketEventHello ∧
            ∃ s, getData ev "connection_id" = some (.str s))) :
    (ev.sequence = st.wsServerSeq →
      (wsEventHandler st store decR decP ev).1.wsServerSeq =
        st.wsServerSeq + 1 ∧
      outErr (wsEventHandler st store decR decP ev).2 ≠
        some HandlerError.seqMismatch) ∧
    (ev.sequence ≠ st.wsServerSeq →
      wsEventHandler st store decR decP ev =
        (st, .ret [] (some .seqMismatch))) := by
  have hh := handleHello_eq_of_not st ev h
  constructor
  · intro hseq
    simp only [wsEventHandler, hh, hseq]
    rw [if_neg (by simp)]
    split
    · exact ⟨rfl, handleReactionEvent_no_mismatch store decR ev⟩
    · split
      · exact ⟨rfl, handlePostEvent_no_mismatch store decP ev⟩
      · exact ⟨rfl, by simp [outErr]⟩
  · intro hseq
    simp only [wsEventHandler, hh]
    rw [if_pos hseq]

/-- Witness for C2 (amended): a non-hello event with sequence 8 against
expected 5 is rejected and the tracker is unchanged. -/
theorem seq_equality_amended_witness :
    wsEventHandler ⟨"a", 5⟩ store0 decodeReactionFail decodePostFail
      ⟨websocketEventPosted, 8, []⟩ =
      (⟨"a", 5⟩, .ret [] (some .seqMismatch)) := by
  exact (seq_equality_amended ⟨"a", 5⟩ store0 decodeReactionFail
      decodePostFail ⟨websocketEventPosted, 8, []⟩
      (by rintro ⟨hty, -⟩; exact absurd hty (by decide))).2 (by decide)

/-- C3: the hello branch of `wsEventHandler` on a hello event carrying
connection id `connID`: the recorded id is always overwritten with
`connID`; `serverSequence` is reset to 0 when the prior id is non-empty
and different; it is left unchanged (never reset) when `connID` equals
the prior id. -/
theorem hello_handshake (st : TrackerState) (connID : String) (ev : WSEvent)
    (hty : ev.eventType = websocketEventHello)
    (hdata : getData ev "connection_id" = some (.str connID)) :
    (handleHello st ev).wsConnID = connID ∧
    (st.wsConnID ≠ "" → st.wsConnID ≠ connID →
      (handleHello st ev).wsServerSeq = 0) ∧
    (st.wsConnID = connID →
      (handleHello st ev).wsServerSeq = st.wsServerSeq) := by
  simp only [handleHello, hty, if_true, hdata]
  refine ⟨by trivial, ?_, ?_⟩
  · intro h1 h2
    rw [if_pos ⟨h1, h2⟩]
  · intro h1
    rw [if_neg (by rintro ⟨-, hne⟩; exact hne h1)]

/-- Witness for C3: prior id "a", hello with id "b" resets the sequence
to 0 and records "b". -/
theorem hello_handshake_witness :
    (handleHello ⟨"a", 5⟩
      ⟨websocketEventHello, 9, [("connection_id", WSData.str "b")]⟩).wsConnID
      = "b" ∧
    (handleHello ⟨"a", 5⟩
      ⟨websocketEventHello, 9, [("connection_id", WSData.str "b")]⟩).wsServerSeq
      = 0 := by
  obtain ⟨h1, h2, h3⟩ := hello_handshake ⟨"a", 5⟩ "b"
    ⟨websocketEventHello, 9, [("connection_id", WSData.str "b")]⟩
    rfl (by decide)
  exact ⟨h1, h2 (by decide) (by decide)⟩

/-- C1 counterexample: loop state with failure count 3, one active
connection, and an event with sequence 9 against expected 0. The claim
says the mismatch increments the connection failure count and waits per
the backoff policy before the next connect attempt; the code instead
leaves the failure count at 3 and `continue start` re-enters connection
establishment immediately (`.reconnect`), bypassing the backoff block at
the bottom of the outer loop. -/
theorem mismatch_backoff_counterexample :
    listenOnEvent ⟨⟨"", 0⟩, 3, 1⟩ store0 decodeReactionFail decodePostFail
      ⟨websocketEventPosted, 9, []⟩ =
      (⟨⟨"", 0⟩, 3, 0⟩, [.closeTransport, .decConnections], .reconnect) := by
  decide

/-- C1 (amended): whenever the session loop handles an inbound event
whose sequence mismatches the expected `serverSequence` (as updated by
the hello branch), it closes the transport and decrements the
active-connection count, but it does NOT increment the connection failure
count and does NOT wait per the backoff policy: it jumps straight back to
connection establishment (`continue start`). -/
theorem mismatch_reconnect_amended (ls : ListenState) (store : Store)
    (decR : String → Option Reaction) (decP : String → Option Post)
    (ev : WSEvent)
    (h : ev.sequence ≠ (handleHello ls.tracker ev).wsServerSeq) :
    listenOnEvent ls store decR decP ev =
      (⟨handleHello ls.tracker ev, ls.connectionFailCount,
        ls.wsConnections - 1⟩,
       [.closeTransport, .decConnections], .reconnect) := by
  have hw : wsEventHandler ls.tracker store decR decP ev =
      (handleHello ls.tracker ev, .ret [] (some .seqMismatch)) := by
    simp only [wsEventHandler]
    rw [if_pos h]
  simp [listenOnEvent, hw]

/-- Witness for C1 (amended): failure count 0 stays 0, the connection
counter drops from 1 to 0, and control jumps to an immediate reconnect. -/
theorem mismatch_reconnect_amended_witness :
    listenOnEvent ⟨⟨"", 0⟩, 0, 1⟩ store0 decodeReactionFail decodePostFail
      ⟨websocketEventPosted, 5, []⟩ =
      (⟨⟨"", 0⟩, 0, 0⟩, [.closeTransport, .decConnections], .reconnect) := by
  exact (mismatch_reconnect_amended ⟨⟨"", 0⟩, 0, 1⟩ store0 decodeReactionFail
      decodePostFail ⟨websocketEventPosted, 5, []⟩ (by decide)).trans (by decide)

/-- C4 counterexample: a posted event with matching sequence whose
payload fails to decode. The claim says the event is not republished on a
non-mismatch dispatch error; the code sends the error on `errChan` and
then still republishes the event on `wsEventChan`. -/
theorem republish_counterexample :
    listenOnEvent ⟨⟨"", 0⟩, 0, 1⟩ store0 decodeReactionFail decodePostFail
      ⟨websocketEventPosted, 0, [("post", WSData.str "junk")]⟩ =
      (⟨⟨"", 1⟩, 0, 1⟩,
       [.errChanSend (.unmarshalError "junk"),
        .republish ⟨websocketEventPosted, 0, [("post", WSData.str "junk")]⟩],
       .active) := by
  decide

/-- C4 (amended): an inbound event is republished to the external
observer output exactly when it passes the sequence check: on a
non-mismatch dispatch error the error is forwarded to the error channel
and the event is STILL republished, the loop continuing `Active`; on
success the event is republished and the loop continues `Active`. -/
theorem republish_amended (ls : ListenState) (store : Store)
    (decR : String → Option Reaction) (decP : String → Option Post)
    (ev : WSEvent) (effs : List StoreOp) :
    (∀ e : HandlerError, e ≠ .seqMismatch →
      (wsEventHandler ls.tracker store decR decP ev).2 = .ret effs (some e) →
      listenOnEvent ls store decR decP ev =
        (⟨(wsEventHandler ls.tracker store decR decP ev).1,
          ls.connectionFailCount, ls.wsConnections⟩,
         [.errChanSend e, .republish ev], .active)) ∧
    ((wsEventHandler ls.tracker store decR decP ev).2 = .ret effs none →
      listenOnEvent ls store decR decP ev =
        (⟨(wsEventHandler ls.tracker store decR decP ev).1,
          ls.connectionFailCount, ls.wsConnections⟩,
         [.republish ev], .active)) := by
  constructor
  · intro e he hw
    cases e <;> first
      | exact absurd rfl he
      | simp [listenOnEvent, hw]
  · intro hw
    simp [listenOnEvent, hw]

/-- Witness for C4 (amended): a posted event with a missing payload field
errors (`postDataMissing`) and is still republished, the loop staying
`Active`. -/
theorem republish_amended_witness :
    listenOnEvent ⟨⟨"", 0⟩, 0, 1⟩ store0 decodeReactionFail decodePostFail
      ⟨websocketEventPosted, 0, []⟩ =
      (⟨⟨"", 1⟩, 0, 1⟩,
       [.errChanSend .postDataMissing,
        .republish ⟨websocketEventPosted, 0, []⟩],
       .active) := by
  exact ((republish_amended ⟨⟨"", 0⟩, 0, 1⟩ store0 decodeReactionFail
      decodePostFail ⟨websocketEventPosted, 0, []⟩ []).1 .postDataMissing
      (by decide) (by decide)).trans (by decide)

/-- C7: dispatching a message-create or message-edit event whose payload
decodes to a post: when the store's current channel equals the post's
channel, the trace is exactly one `SetPost`; when a different channel is
current, no store mutation and no error; when the store reports no
current channel (`ErrChannelNotFound`), silently ignored with no error;
any other current-channel lookup error propagates (wrapped). -/
theorem post_event_dispatch (store : Store) (decP : String → Option Post)
    (ev : WSEvent) (s : String) (post : Post)
    (hty : ev.eventType = websocketEventPosted ∨
           ev.eventType = websocketEventPostEdited)
    (hdata : getData ev "post" = some (.str s))
    (hdec : decP s = some post) :
    (∀ ch : Channel, store.currentChannel = (some ch, none) →
      ch.id = post.channelId →
      handlePostEvent store decP ev =
        .ret [.setPost post] ((store.setPost post).map .storeError)) ∧
    (∀ ch : Channel, store.currentChannel = (some ch, none) →
      ch.id ≠ post.channelId →
      handlePostEvent store decP ev = .ret [] none) ∧
    (∀ chOpt : Option Channel,
      store.currentChannel = (chOpt, some .channelNotFound) →
      handlePostEvent store decP ev = .ret [] none) ∧
    (∀ (chOpt : Option Channel) (e : StoreError),
      store.currentChannel = (chOpt, some e) → e ≠ .channelNotFound →
      handlePostEvent store decP ev =
        .ret [] (some (.currentChannelError e))) := by
  refine ⟨?_, ?_, ?_, ?_⟩
  · intro ch hcc hid
    simp [handlePostEvent, hdata, hdec, hty, hcc, hid]
  · intro ch hcc hid
    simp [handlePostEvent, hdata, hdec, hty, hcc, hid]
  · intro chOpt hcc
    cases chOpt <;> simp [handlePostEvent, hdata, hdec, hty, hcc]
  · intro chOpt e hcc he
    cases chOpt <;> cases e <;>
      first
        | exact absurd rfl he
        | simp [handlePostEvent, hdata, hdec, hty, hcc]

/-- Witness for C7: channel `c1` is current and the decoded post is in
`c1`, so the dispatch performs exactly the one `SetPost` and succeeds. -/
theorem post_event_dispatch_witness :
    handlePostEvent storeChan decodePostC
      ⟨websocketEventPosted, 0, [("post", WSData.str "POST")]⟩ =
      .ret [.setPost ⟨"p1", "c1"⟩] none := by
  exact ((post_event_dispatch storeChan decodePostC
      ⟨websocketEventPosted, 0, [("post", WSData.str "POST")]⟩ "POST"
      ⟨"p1", "c1"⟩ (Or.inl rfl) (by decide) (by decide)).1 ⟨"c1"⟩ rfl
      rfl).trans (by decide)

/-- C8: dispatching a reaction-remove event with a current channel, the
referenced post known, in the current channel, and no lookup error: when
the store's delete reports the reaction absent (`(false, nil)`), the
handler returns the reportable "could not find reaction in the store"
error; when the delete succeeds (`(true, nil)`), no error is returned. -/
theorem reaction_remove_dispatch (store : Store)
    (decR : String → Option Reaction) (ev : WSEvent) (s : String)
    (r : Reaction) (ch : Channel) (p : Post)
    (hty : ev.eventType = websocketEventReactionRemoved)
    (hdata : getData ev "reaction" = some (.str s))
    (hdec : decR s = some r)
    (hcc : store.currentChannel = (some ch, none))
    (hpost : store.post r.postId = (some p, none))
    (hchan : p.channelId = ch.id) :
    (store.deleteReaction r = (false, none) →
      handleReactionEvent store decR ev =
        .ret [.deleteReaction r] (some .reactionNotFound)) ∧
    (store.deleteReaction r = (true, none) →
      handleReactionEvent store decR ev =
        .ret [.deleteReaction r] none) := by
  constructor <;> intro hdel <;>
    simp [handleReactionEvent, hdata, hdec, hcc, hpost, hchan, hty, hdel,
      websocketEventReactionRemoved, websocketEventReactionAdded]

/-- Witness for C8: against `storeChan` the reaction is absent and the
remove yields the reportable error; against `storeChanReact` it is
present and the remove succeeds. -/
theorem reaction_remove_dispatch_witness :
    handleReactionEvent storeChan decodeReactionC
      ⟨websocketEventReactionRemoved, 0, [("reaction", WSData.str "REACT")]⟩ =
      .ret [.deleteReaction ⟨"u1", "p1", "smile"⟩] (some .reactionNotFound) ∧
    handleReactionEvent storeChanReact decodeReactionC
      ⟨websocketEventReactionRemoved, 0, [("reaction", WSData.str "REACT")]⟩ =
      .ret [.deleteReaction ⟨"u1", "p1", "smile"⟩] none := by
  constructor
  · exact (reaction_remove_dispatch storeChan decodeReactionC
      ⟨websocketEventReactionRemoved, 0, [("reaction", WSData.str "REACT")]⟩
      "REACT" ⟨"u1", "p1", "smile"⟩ ⟨"c1"⟩ ⟨"p1", "c1"⟩ rfl (by decide)
      (by decide) rfl (by decide) rfl).1 (by decide)
  · exact (reaction_remove_dispatch storeChanReact decodeReactionC
      ⟨websocketEventReactionRemoved, 0, [("reaction", WSData.str "REACT")]⟩
      "REACT" ⟨"u1", "p1", "smile"⟩ ⟨"c1"⟩ ⟨"p1", "c1"⟩ rfl (by decide)
      (by decide) rfl (by decide) rfl).2 (by decide)

/-- C10: in the reaction handler the disjunction
`errors.Is(err, ErrPostNotFound) || post.ChannelId != currentChannel.Id`
is evaluated before `if err != nil`: when the post lookup returns a `nil`
post together with an error other than `ErrPostNotFound`, the handler
dereferences the `nil` post's `ChannelId`; and the error-propagation
branch is unreachable when the lookup returned no post. -/
theorem reaction_post_lookup_order (store : Store)
    (decR : String → Option Reaction) (ev : WSEvent) (s : String)
    (r : Reaction) (ch : Channel) (eOpt : Option StoreError)
    (hdata : getData ev "reaction" = some (.str s))
    (hdec : decR s = some r)
    (hcc : store.currentChannel = (some ch, none))
    (hpost : store.post r.postId = (none, eOpt)) :
    (eOpt ≠ some .postNotFound →
      handleReactionEvent store decR ev = .nilDeref []) ∧
    (∀ (effs : List StoreOp) (e : StoreError),
      handleReactionEvent store decR ev ≠
        .ret effs (some (.postLookupError e))) := by
  constructor
  · intro hne
    cases eOpt with
    | none => simp [handleReactionEvent, hdata, hdec, hcc, hpost]
    | some e =>
      cases e with
      | channelNotFound => simp [handleReactionEvent, hdata, hdec, hcc, hpost]
      | postNotFound => exact absurd rfl hne
      | other m => simp [handleReactionEvent, hdata, hdec, hcc, hpost]
  · intro effs e
    cases eOpt with
    | none => simp [handleReactionEvent, hdata, hdec, hcc, hpost]
    | some e2 =>
      cases e2 <;> simp [handleReactionEvent, hdata, hdec, hcc, hpost]

/-- Witness for C10: a store whose post lookup fails with "db failure"
and a `nil` post drives the handler into the `nil` dereference. -/
theorem reaction_post_lookup_order_witness :
    handleReactionEvent storeErrLookup decodeReactionC
      ⟨websocketEventReactionRemoved, 0, [("reaction", WSData.str "REACT")]⟩ =
      .nilDeref [] := by
  exact (reaction_post_lookup_order storeErrLookup decodeReactionC
      ⟨websocketEventReactionRemoved, 0, [("reaction", WSData.str "REACT")]⟩
      "REACT" ⟨"u1", "p1", "smile"⟩ ⟨"c1"⟩ (some (.other "db failure"))
      (by decide) (by decide) rfl (by decide)).1 (by decide)

/-- C9: `SendTypingEvent` returns the "user is not connected" error and
enqueues nothing when the session was never started (`connected` false);
otherwise, for every `(channelId, parentId)` pair it enqueues exactly
that typing signal and returns no error — the function makes no
transport call in either case (the session loop alone talks to the
transport). -/
theorem send_typing_facade (channelId parentId : String) :
    sendTypingEvent false channelId parentId =
      (some "user is not connected", none) ∧
    sendTypingEvent true channelId parentId =
      (none, some ⟨channelId, parentId⟩) := by
  exact ⟨rfl, rfl⟩

end Websocket
